import Mathlib

/-!
Verification development for the RepCoin fitness backend
(src/backend/server.py).  The Python handlers are shallowly embedded as
pure Lean functions: module-level mutable state (the in-memory demo user,
the champions table) and the document store become explicit state values
threaded through each operation, Python ints become Lean Int, Python
floats (used only by the pose parser, with exact decimal inputs) become
rationals, and the HTTPException paths become Except values.  External
collaborators (MongoDB, the vision LLM) appear as explicit inputs: the
database is a list of records, the LLM call outcome is an Except value
handed to the handler.

Python string helpers are modelled on character lists: the ASCII fragment
of str.lower / str.strip / the in operator / str.split, which is all the
analysed inputs exercise.  Python float(...) is modelled on the
sign-digits-dot-digits fragment of its grammar (no exponent, inf, nan or
underscore forms; no analysed input uses those), returning an exact
rational.
-/

namespace RepCoin

/-! ## Python string primitives -/

/-- ASCII fragment of Python str.lower. -/
def pyLower (s : String) : String := String.mk (s.toList.map Char.toLower)

/-- Python str.strip with no argument: remove whitespace from both ends. -/
def pyStrip (s : String) : String :=
  String.mk (((s.toList.dropWhile Char.isWhitespace).reverse.dropWhile
    Char.isWhitespace).reverse)

/-- Occurrence test for a contiguous character sequence, matching the
Python substring operator. -/
def listContainsSub (sep : List Char) : List Char → Bool
  | [] => sep.isEmpty
  | c :: rest => sep.isPrefixOf (c :: rest) || listContainsSub sep rest

/-- Python sub in s (substring containment). -/
def strContains (s sub : String) : Bool := listContainsSub sub.toList s.toList

/-- Prefix of a character list strictly before the first occurrence of
sep (the whole list when sep does not occur). -/
def takeUntilFirst (sep : List Char) : List Char → List Char
  | [] => []
  | c :: rest =>
    if sep.isPrefixOf (c :: rest) then [] else c :: takeUntilFirst sep rest

/-- Suffix of a character list strictly after the first occurrence of sep
(empty when sep does not occur). -/
def dropThroughFirst (sep : List Char) : List Char → List Char
  | [] => []
  | c :: rest =>
    if sep.isPrefixOf (c :: rest) then List.drop sep.length (c :: rest)
    else dropThroughFirst sep rest

/-- Numeric value of a list of decimal digit characters. -/
def digitsVal (ds : List Char) : Nat :=
  ds.foldl (fun a c => 10 * a + (c.toNat - 48)) 0

/-- Decimal-literal fragment of Python float(...): optional sign, digits,
optional dot and fraction digits, nothing else.  Returns the signed
mantissa together with the number of fraction digits, or none on any
other input (matching the ValueError of float on such input). -/
def parseParts (s : String) : Option (Int × Nat) :=
  let cs := s.toList
  let signRest : Int × List Char :=
    match cs with
    | '+' :: rest => (1, rest)
    | '-' :: rest => (-1, rest)
    | _ => (1, cs)
  let sign := signRest.1
  let cs0 := signRest.2
  let intPart := cs0.takeWhile Char.isDigit
  let cs1 := cs0.dropWhile Char.isDigit
  match cs1 with
  | [] => if intPart.isEmpty then none else some (sign * (digitsVal intPart : Int), 0)
  | '.' :: rest =>
    let fracPart := rest.takeWhile Char.isDigit
    let cs2 := rest.dropWhile Char.isDigit
    if cs2.isEmpty then
      if intPart.isEmpty && fracPart.isEmpty then none
      else some (sign * (digitsVal (intPart ++ fracPart) : Int), fracPart.length)
    else none
  | _ => none

/-- Exact rational value of a parsed decimal literal. -/
def ratOfParts (p : Int × Nat) : ℚ := (p.1 : ℚ) / (10 : ℚ) ^ p.2

/-- The modelled float(...): parse, then interpret exactly. -/
def parseDecimal (s : String) : Option ℚ := (parseParts s).map ratOfParts

/-- Python min on two numbers (ties keep the first argument). -/
def pyMin (a b : ℚ) : ℚ := if b < a then b else a

/-- Python max on two numbers (ties keep the first argument). -/
def pyMax (a b : ℚ) : ℚ := if a < b then b else a

/-! ## In-memory demo-user store (user_store in server.py) -/

/-- The demo_user entry of the module-level user_store dictionary. -/
structure UserState where
  rep_points : Int
  badges_unlocked : Bool
  premium_unlocked : Bool
deriving DecidableEq

/-- Initial demo-user state declared at module load. -/
def initial_user : UserState :=
  { rep_points := 0, badges_unlocked := false, premium_unlocked := false }

/-- Response model RepPointsResponse. -/
structure RepPointsResponse where
  rep_points : Int
  message : String
deriving DecidableEq

/-- POST /api/add_rep handler: increment rep_points by 1 and return the
balance.  Returns the response together with the updated user state. -/
def add_rep (u : UserState) : RepPointsResponse × UserState :=
  let u2 : UserState := { u with rep_points := u.rep_points + 1 }
  ({ rep_points := u2.rep_points, message := "Rep added! Keep pushing!" }, u2)

/-- GET /api/wallet handler: report the current rep_points. -/
def get_wallet (u : UserState) : RepPointsResponse :=
  { rep_points := u.rep_points, message := "Current balance" }

/-- Response model StorePurchaseResponse. -/
structure StorePurchaseResponse where
  success : Bool
  message : String
  rep_points : Int
  item_unlocked : Bool
deriving DecidableEq

/-- The f-string used by purchase_item when the balance is short. -/
def notEnoughMessage (cost pts : Int) : String :=
  "Not enough REP points! Need " ++ toString cost ++ ", have " ++ toString pts

/-- POST /api/store/purchase handler (purchase_item in server.py),
transcribed branch by branch.  Returns the response together with the
updated user state. -/
def purchase_item (user : UserState) (item_id : String) :
    StorePurchaseResponse × UserState :=
  if item_id = "badge" then
    if user.badges_unlocked then
      ({ success := false, message := "Badge already unlocked!",
         rep_points := user.rep_points, item_unlocked := true }, user)
    else if user.rep_points < 50 then
      ({ success := false, message := notEnoughMessage 50 user.rep_points,
         rep_points := user.rep_points, item_unlocked := false }, user)
    else
      let user2 : UserState :=
        { user with rep_points := user.rep_points - 50, badges_unlocked := true }
      ({ success := true, message := "ðŸŽ–ï¸ Badge Unlocked!",
         rep_points := user2.rep_points, item_unlocked := true }, user2)
  else if item_id = "premium" then
    if user.premium_unlocked then
      ({ success := false, message := "Premium already unlocked!",
         rep_points := user.rep_points, item_unlocked := true }, user)
    else if user.rep_points < 100 then
      ({ success := false, message := notEnoughMessage 100 user.rep_points,
         rep_points := user.rep_points, item_unlocked := false }, user)
    else
      let user2 : UserState :=
        { user with rep_points := user.rep_points - 100, premium_unlocked := true }
      ({ success := true, message := "â­ Premium Unlocked!",
         rep_points := user2.rep_points, item_unlocked := true }, user2)
  else
    ({ success := false, message := "Item not found",
       rep_points := user.rep_points, item_unlocked := false }, user)

/-! ## Persistent store records and Rep creation -/

/-- A document of the reps collection (model Rep); the id and timestamp
are generated by the handler and appear here as explicit inputs. -/
structure RepRec where
  id : String
  exercise_type : String
  coins_earned : Int
  timestamp : Nat
deriving DecidableEq

/-- A document of the sessions collection (model WorkoutSession). -/
structure SessionRec where
  id : String
  pushups : Int
  situps : Int
  total_coins : Int
  timestamp : Nat
deriving DecidableEq

/-- The two MongoDB collections the analysed handlers touch. -/
structure DBState where
  reps : List RepRec
  sessions : List SessionRec
deriving DecidableEq

/-- Request model RepCreate: a plain string field and a plain int field,
with no enum membership or sign constraint attached. -/
structure RepCreate where
  exercise_type : String
  coins_earned : Int
deriving DecidableEq

/-- Combined state touched by the Rep endpoints: the MongoDB collections
plus the in-memory demo user. -/
structure AppState where
  db : DBState
  user : UserState
deriving DecidableEq

/-- State at process start: empty collections, initial demo user. -/
def initial_app : AppState := { db := { reps := [], sessions := [] }, user := initial_user }

/-- POST /api/reps handler (create_rep in server.py): build the Rep
object from the input, insert it into the reps collection, and also
increment the in-memory rep_points by 1.  freshId and now stand for the
generated uuid and the current timestamp. -/
def create_rep (s : AppState) (input : RepCreate) (freshId : String) (now : Nat) :
    RepRec × AppState :=
  let rep_obj : RepRec :=
    { id := freshId, exercise_type := input.exercise_type,
      coins_earned := input.coins_earned, timestamp := now }
  (rep_obj,
   { db := { s.db with reps := s.db.reps ++ [rep_obj] },
     user := { s.user with rep_points := s.user.rep_points + 1 } })

/-- Response model WalletData. -/
structure WalletData where
  total_coins : Int
  total_pushups : Nat
  total_situps : Nat
  sessions_count : Nat
deriving DecidableEq

/-- GET /api/wallet/stats handler (get_wallet_stats in server.py): the
two count_documents filters, the coins_earned sum aggregation (0 on an
empty collection), and the sessions count. -/
def get_wallet_stats (db : DBState) : WalletData :=
  let pushup_count := (db.reps.filter (fun r => r.exercise_type == "pushup")).length
  let situp_count := (db.reps.filter (fun r => r.exercise_type == "situp")).length
  let total_coins := (db.reps.map (fun r => r.coins_earned)).sum
  let sessions_count := db.sessions.length
  { total_coins := total_coins, total_pushups := pushup_count,
    total_situps := situp_count, sessions_count := sessions_count }

/-! ## Operation sequences over the shared mutable state -/

/-- The operations that can touch the demo-user state: the in-memory
add_rep endpoint, Rep creation, and a store purchase. -/
inductive Op where
  | addRep : Op
  | createRep : RepCreate → String → Nat → Op
  | purchase : String → Op
deriving DecidableEq

/-- Effect of one operation on the combined state. -/
def applyOp (s : AppState) : Op → AppState
  | .addRep => { s with user := (add_rep s.user).2 }
  | .createRep input freshId now => (create_rep s input freshId now).2
  | .purchase item_id => { s with user := (purchase_item s.user item_id).2 }

/-- Run a sequence of operations from process start. -/
def runOps (ops : List Op) : AppState := ops.foldl applyOp initial_app

/-! ## Champions / challenge submission -/

/-- One entry of the module-level champions dictionary. -/
structure Champion where
  champion_name : String
  champion_photo : Option String
  best_reps : Int
  best_time_seconds : Int
  date_achieved : Option String
deriving DecidableEq

/-- The champions dictionary: one entry per known exercise kind. -/
structure ChampionsState where
  pushup : Champion
  situp : Champion
deriving DecidableEq

/-- Champions state declared at module load. -/
def initial_champions : ChampionsState :=
  { pushup := { champion_name := "Be the first!", champion_photo := none,
                best_reps := 0, best_time_seconds := 0, date_achieved := none },
    situp := { champion_name := "Be the first!", champion_photo := none,
               best_reps := 0, best_time_seconds := 0, date_achieved := none } }

/-- Dictionary lookup champions[exercise_type]: the dictionary has
exactly the keys pushup and situp. -/
def lookupChampion (st : ChampionsState) (exercise_type : String) : Option Champion :=
  if exercise_type = "pushup" then some st.pushup
  else if exercise_type = "situp" then some st.situp
  else none

/-- Dictionary write champions[exercise_type] = c. -/
def setChampion (st : ChampionsState) (exercise_type : String) (c : Champion) :
    ChampionsState :=
  if exercise_type = "pushup" then { st with pushup := c }
  else if exercise_type = "situp" then { st with situp := c }
  else st

/-- Request model ChallengeAttempt. -/
structure ChallengeAttempt where
  exercise_type : String
  reps_completed : Int
  time_seconds : Int
  player_name : String
  player_photo : Option String
deriving DecidableEq

/-- Response model ChampionInfo. -/
structure ChampionInfo where
  exercise_type : String
  champion_name : String
  champion_photo : Option String
  best_reps : Int
  best_time_seconds : Int
  date_achieved : Option String
deriving DecidableEq

/-- Response model ChallengeResult. -/
structure ChallengeResult where
  success : Bool
  is_new_champion : Bool
  message : String
  current_champion : ChampionInfo
deriving DecidableEq

/-- The f-string announcing a new champion. -/
def newChampionMessage (name : String) (reps : Int) : String :=
  "ðŸ† NEW CHAMPION! " ++ name ++ " with " ++ toString reps ++ " reps!"

/-- The f-string for an attempt that does not set a record. -/
def goodEffortMessage (best : Int) (name : String) : String :=
  "Good effort! Current record: " ++ toString best ++ " reps by " ++ name

/-- GET /api/challenge/exercise_type handler (get_champion in
server.py): 404 on an unknown kind, otherwise the stored champion view. -/
def get_champion (st : ChampionsState) (exercise_type : String) :
    Except String ChampionInfo :=
  match lookupChampion st exercise_type with
  | none => .error "Exercise type not found"
  | some champ =>
    .ok { exercise_type := exercise_type, champion_name := champ.champion_name,
          champion_photo := champ.champion_photo, best_reps := champ.best_reps,
          best_time_seconds := champ.best_time_seconds,
          date_achieved := champ.date_achieved }

/-- POST /api/challenge/submit handler (submit_challenge in server.py).
The error case is the HTTPException 404; the ok case carries the
response together with the champions state after the call.  now stands
for datetime.utcnow().isoformat(). -/
def submit_challenge (st : ChampionsState) (a : ChallengeAttempt) (now : String) :
    Except String (ChallengeResult × ChampionsState) :=
  match lookupChampion st a.exercise_type with
  | none => .error "Exercise type not found"
  | some current =>
    let is_new_record : Bool :=
      if current.best_reps < a.reps_completed then true
      else if a.reps_completed = current.best_reps ∧ 0 < current.best_reps then
        decide (a.time_seconds < current.best_time_seconds)
      else false
    if is_new_record then
      let newChamp : Champion :=
        { champion_name := a.player_name, champion_photo := a.player_photo,
          best_reps := a.reps_completed, best_time_seconds := a.time_seconds,
          date_achieved := some now }
      .ok ({ success := true, is_new_champion := true,
             message := newChampionMessage a.player_name a.reps_completed,
             current_champion :=
               { exercise_type := a.exercise_type, champion_name := a.player_name,
                 champion_photo := a.player_photo, best_reps := a.reps_completed,
                 best_time_seconds := a.time_seconds, date_achieved := some now } },
           setChampion st a.exercise_type newChamp)
    else
      .ok ({ success := true, is_new_champion := false,
             message := goodEffortMessage current.best_reps current.champion_name,
             current_champion :=
               { exercise_type := a.exercise_type,
                 champion_name := current.champion_name,
                 champion_photo := current.champion_photo,
                 best_reps := current.best_reps,
                 best_time_seconds := current.best_time_seconds,
                 date_achieved := current.date_achieved } },
           st)

/-- is_new_champion flag of a submission (false on the 404 path, which
returns no such flag). -/
def submitIsNewChampion (st : ChampionsState) (a : ChallengeAttempt) (now : String) :
    Bool :=
  match submit_challenge st a now with
  | .ok (r, _) => r.is_new_champion
  | .error _ => false

/-- Champions state after a submission; the 404 path aborts the handler
before any write, leaving the module-level dictionary unchanged. -/
def submitNewState (st : ChampionsState) (a : ChallengeAttempt) (now : String) :
    ChampionsState :=
  match submit_challenge st a now with
  | .ok (_, st2) => st2
  | .error _ => st

/-! ## Pose response parser and the analyze-pose handler -/

/-- The literal marker the parser searches for. -/
def shoulderMarker : List Char := "shoulder_y:".toList

/-- The expression response_lower.split with the marker, index 1, then
split on a newline, index 0, then strip: the text after the first
occurrence of the marker, truncated at the next occurrence of the marker
(Python split yields the chunk between consecutive occurrences) and then
at the next line break, whitespace-stripped. -/
def shoulderToken (t : String) : String :=
  pyStrip (String.mk (takeUntilFirst ['\n']
    (takeUntilFirst shoulderMarker (dropThroughFirst shoulderMarker t.toList))))

/-- The shoulder_y extraction of analyze_pose, applied to the already
lowered and stripped response text: default 0.5, overwritten by the
clamped parsed value when the marker is present and the token parses;
the bare except keeps the default on a parse failure. -/
def extractShoulderY (t : String) : ℚ :=
  if strContains t "shoulder_y:" then
    match parseParts (shoulderToken t) with
    | some p => pyMax 0 (pyMin 1 (ratOfParts p))
    | none => 1/2
  else 1/2

/-- Position and confidence chain of analyze_pose, applied to the
already lowered and stripped response text. -/
def extractPosition (t : String) : String × String :=
  if strContains t "position: up" || strContains t "position:up" then
    ("up", "high")
  else if strContains t "position: down" || strContains t "position:down" then
    ("down", "high")
  else if strContains t "up" && !(strContains t "down") then
    ("up", "medium")
  else if strContains t "down" && !(strContains t "up") then
    ("down", "medium")
  else
    ("unknown", "low")

/-- Normalized parse result of one LLM reply. -/
structure ParsedPose where
  position : String
  shoulder_y : ℚ
  confidence : String

/-- The full parsing block of analyze_pose: lower and strip the raw
response, then extract shoulder_y and the position/confidence pair. -/
def parsePoseText (response : String) : ParsedPose :=
  let response_lower := pyLower (pyStrip response)
  { position := (extractPosition response_lower).1,
    shoulder_y := extractShoulderY response_lower,
    confidence := (extractPosition response_lower).2 }

/-- Response model PoseAnalysisResponse; shoulder_y is the exact
rational standing for the Python float. -/
structure PoseAnalysisResponse where
  position : String
  shoulder_y : ℚ
  confidence : String
  message : String
  raw_response : String

/-- Human-readable success message of analyze_pose; the Python code
formats shoulder_y to two decimal places, a float-rendering detail
abstracted here as an exact numerator/denominator rendering. -/
def detectedMessage (position : String) (y : ℚ) : String :=
  "Detected " ++ position ++ " position at y=" ++ toString y.num ++ "/" ++ toString y.den

/-- POST /api/analyze-pose handler (analyze_pose in server.py).  The
inference collaborator appears as two explicit inputs: whether
EMERGENT_LLM_KEY is configured, and the outcome of the send_message
call (ok carries the reply text, error carries str of the exception).
The handler is total: every path builds a PoseAnalysisResponse, so no
error status can reach the caller; the broad except around the body is
the error branch here, and the parser runs only on the ok branch. -/
def analyze_pose (keyConfigured : Bool) (callResult : Except String String) :
    PoseAnalysisResponse :=
  if keyConfigured = false then
    { position := "unknown", shoulder_y := 1/2, confidence := "low",
      message := "AI key not configured", raw_response := "" }
  else
    match callResult with
    | .error e =>
      { position := "unknown", shoulder_y := 1/2, confidence := "low",
        message := e, raw_response := "" }
    | .ok response =>
      let parsed := parsePoseText response
      { position := parsed.position, shoulder_y := parsed.shoulder_y,
        confidence := parsed.confidence,
        message := detectedMessage parsed.position parsed.shoulder_y,
        raw_response := String.mk (response.toList.take 200) }

/-- Modelled from the spec: the shoulder_y computation as claim C3 words
it, where the parsed token runs from the marker up to the next line
break only (no truncation at a second occurrence of the marker).  This
definition exists to be compared with extractShoulderY, which follows
the source. -/
def shoulderYClaimed (response : String) : ℚ :=
  let t := pyLower (pyStrip response)
  if strContains t "shoulder_y:" then
    match parseParts (pyStrip (String.mk (takeUntilFirst ['\n']
        (dropThroughFirst shoulderMarker t.toList)))) with
    | some p => pyMax 0 (pyMin 1 (ratOfParts p))
    | none => 1/2
  else 1/2

/-! ## Shared helper lemmas -/

/-- Filtering a constant list keeps everything or nothing. -/
theorem filter_of_replicate {α : Type} (n : Nat) (x : α) (p : α → Bool) :
    (List.replicate n x).filter p = if p x then List.replicate n x else [] := by
  induction n with
  | zero => simp
  | succ n ih =>
    rw [List.replicate_succ, List.filter_cons, ih]
    by_cases h : p x = true
    · simp [h, List.replicate_succ]
    · simp [h]

/-! ## Claims -/

/-- Claim C4: when the inference credential is missing, or the
collaborator call fails with any error, analyze_pose returns the
success-shaped default response with position unknown, shoulder_y 0.5
and confidence low, carrying the failure description as its message; the
parser is not consulted (the result is this fixed record, independent of
any reply text).  Totality of analyze_pose, a plain Lean function into
PoseAnalysisResponse, embeds the guarantee that the operation never
raises an error status for any input. -/
theorem analyze_pose_degrades_gracefully :
    (∀ res : Except String String,
      analyze_pose false res =
        { position := "unknown", shoulder_y := 1/2, confidence := "low",
          message := "AI key not configured", raw_response := "" }) ∧
    (∀ e : String,
      analyze_pose true (.error e) =
        { position := "unknown", shoulder_y := 1/2, confidence := "low",
          message := e, raw_response := "" }) := by
  refine ⟨fun res => rfl, fun e => rfl⟩

/-- Claim C6 as stated is false on the code: the request model RepCreate
constrains only field presence and primitive types, and create_rep
performs no further check, so the invalid input with exercise kind
banana and coin count -5 is not rejected: a Rep record echoing it is
created and persisted. -/
theorem create_rep_accepts_unvalidated_input :
    (create_rep initial_app
        { exercise_type := "banana", coins_earned := -5 } "id-0" 0).2.db.reps =
      [{ id := "id-0", exercise_type := "banana", coins_earned := -5, timestamp := 0 }] ∧
    (create_rep initial_app
        { exercise_type := "banana", coins_earned := -5 } "id-0" 0).1 =
      { id := "id-0", exercise_type := "banana", coins_earned := -5, timestamp := 0 } :=
  ⟨rfl, rfl⟩

/-- Claim C6 amended: Rep creation validates only the shape enforced by
the request model (fields present, string and int types); it checks
neither membership of the exercise kind in the pushup/situp pair nor
non-negativity of the coin count.  Every well-typed input is persisted
verbatim: the created record echoes the input and is appended to the
reps collection. -/
theorem create_rep_persists_every_input :
    ∀ (s : AppState) (input : RepCreate) (freshId : String) (now : Nat),
      (create_rep s input freshId now).1 =
        { id := freshId, exercise_type := input.exercise_type,
          coins_earned := input.coins_earned, timestamp := now } ∧
      (create_rep s input freshId now).2.db.reps =
        s.db.reps ++ [{ id := freshId, exercise_type := input.exercise_type,
                        coins_earned := input.coins_earned, timestamp := now }] :=
  fun _ _ _ _ => ⟨rfl, rfl⟩

/-- Claim C9: every Rep creation, besides inserting the record into the
store, increments the in-memory demo user rep_points by exactly 1,
whatever coins_earned the request carries; hence the balance reported by
the wallet endpoint counts created Reps, not earned coins. -/
theorem create_rep_increments_rep_points :
    ∀ (s : AppState) (input : RepCreate) (freshId : String) (now : Nat),
      (create_rep s input freshId now).2.user.rep_points = s.user.rep_points + 1 ∧
      (get_wallet (create_rep s input freshId now).2.user).rep_points =
        (get_wallet s.user).rep_points + 1 ∧
      (create_rep s input freshId now).2.db.reps =
        s.db.reps ++ [(create_rep s input freshId now).1] :=
  fun _ _ _ _ => ⟨rfl, rfl, rfl⟩

/-- Claim C2: the pose parser decides position and confidence by the
stated priority chain over the lowered (and stripped) response text, and
the sample reply with no explicit marker but the word up yields position
up with confidence medium. -/
theorem pose_position_priority :
    (∀ response : String,
      ((parsePoseText response).position, (parsePoseText response).confidence) =
        (let t := pyLower (pyStrip response)
         if strContains t "position: up" || strContains t "position:up" then
           ("up", "high")
         else if strContains t "position: down" || strContains t "position:down" then
           ("down", "high")
         else if strContains t "up" && !(strContains t "down") then
           ("up", "medium")
         else if strContains t "down" && !(strContains t "up") then
           ("down", "medium")
         else ("unknown", "low"))) ∧
    (parsePoseText "I see the person is up").position = "up" ∧
    (parsePoseText "I see the person is up").confidence = "medium" := by
  refine ⟨fun response => Prod.mk.eta, by decide, by decide⟩

/-- Claim C7: the wallet aggregation returns the coins_earned sum over
all Rep records, the per-kind Rep counts, and the WorkoutSession count;
in particular on a store of N pushup Reps and M situp Reps worth one
coin each plus S sessions it reports N, M, N+M and S. -/
theorem wallet_stats_aggregation :
    (∀ db : DBState,
      get_wallet_stats db =
        { total_coins := (db.reps.map (fun r => r.coins_earned)).sum,
          total_pushups := (db.reps.filter (fun r => r.exercise_type == "pushup")).length,
          total_situps := (db.reps.filter (fun r => r.exercise_type == "situp")).length,
          sessions_count := db.sessions.length }) ∧
    (∀ N M S : Nat,
      get_wallet_stats
        { reps := List.replicate N
              { id := "p", exercise_type := "pushup", coins_earned := 1, timestamp := 0 } ++
            List.replicate M
              { id := "s", exercise_type := "situp", coins_earned := 1, timestamp := 0 },
          sessions := List.replicate S
              { id := "w", pushups := 0, situps := 0, total_coins := 0, timestamp := 0 } } =
        { total_coins := (N : Int) + M, total_pushups := N, total_situps := M,
          sessions_count := S }) := by
  constructor
  · intro db; rfl
  · intro N M S
    simp only [get_wallet_stats, List.filter_append, List.map_append, List.sum_append,
      List.map_replicate, List.sum_replicate, List.length_append, List.length_replicate,
      filter_of_replicate]
    norm_num [smul_eq_mul]
    exact ⟨fun h => absurd h (by decide), fun h => absurd h (by decide)⟩

/-- Claim C5: buying a known item fails without touching any state when
the item is already unlocked or the balance is below its cost (badge 50,
premium 100); otherwise it succeeds, debits exactly the cost and sets
that unlock flag and nothing else; and after a successful badge
purchase, buying badge again fails, reports the item as unlocked, and
leaves the balance unchanged. -/
theorem store_purchase_contract :
    ∀ u : UserState,
      (u.badges_unlocked = true ∨ u.rep_points < 50 →
        (purchase_item u "badge").1.success = false ∧
        (purchase_item u "badge").2 = u) ∧
      (u.badges_unlocked = false → ¬ u.rep_points < 50 →
        (purchase_item u "badge").1.success = true ∧
        (purchase_item u "badge").2 =
          { rep_points := u.rep_points - 50, badges_unlocked := true,
            premium_unlocked := u.premium_unlocked }) ∧
      (u.premium_unlocked = true ∨ u.rep_points < 100 →
        (purchase_item u "premium").1.success = false ∧
        (purchase_item u "premium").2 = u) ∧
      (u.premium_unlocked = false → ¬ u.rep_points < 100 →
        (purchase_item u "premium").1.success = true ∧
        (purchase_item u "premium").2 =
          { rep_points := u.rep_points - 100, badges_unlocked := u.badges_unlocked,
            premium_unlocked := true }) ∧
      (u.badges_unlocked = false → ¬ u.rep_points < 50 →
        (purchase_item (purchase_item u "badge").2 "badge").1.success = false ∧
        (purchase_item (purchase_item u "badge").2 "badge").1.item_unlocked = true ∧
        (purchase_item (purchase_item u "badge").2 "badge").2 =
          (purchase_item u "badge").2) := by
  intro u
  refine ⟨?_, ?_, ?_, ?_, ?_⟩
  · rintro (h | h)
    · simp [purchase_item, h]
    · by_cases hb : u.badges_unlocked <;> simp [purchase_item, h, hb]
  · intro hb hp
    simp [purchase_item, hb, hp]
  · rintro (h | h)
    · simp [purchase_item, h]
    · by_cases hb : u.premium_unlocked <;> simp [purchase_item, h, hb]
  · intro hb hp
    simp [purchase_item, hb, hp]
  · intro hb hp
    simp [purchase_item, hb, hp]

/-- Demo user with 10 points and nothing unlocked, for the C5 witness. -/
def userWith10 : UserState :=
  { rep_points := 10, badges_unlocked := false, premium_unlocked := false }

/-- Demo user with 60 points and nothing unlocked, for the C5 witness. -/
def userWith60 : UserState :=
  { rep_points := 60, badges_unlocked := false, premium_unlocked := false }

/-- Witness for claim C5 at concrete balances: 10 points cannot buy the
badge; 60 points buy it for 50, and buying again fails with the item
reported unlocked and the balance untouched. -/
theorem store_purchase_contract_witness :
    ((purchase_item userWith10 "badge").1.success = false ∧
      (purchase_item userWith10 "badge").2 = userWith10) ∧
    ((purchase_item userWith60 "badge").1.success = true ∧
      (purchase_item userWith60 "badge").2 =
        { rep_points := 60 - 50, badges_unlocked := true, premium_unlocked := false }) ∧
    ((purchase_item (purchase_item userWith60 "badge").2 "badge").1.success = false ∧
      (purchase_item (purchase_item userWith60 "badge").2 "badge").1.item_unlocked = true ∧
      (purchase_item (purchase_item userWith60 "badge").2 "badge").2 =
        (purchase_item userWith60 "badge").2) :=
  ⟨(store_purchase_contract userWith10).1 (Or.inr (by decide)),
   (store_purchase_contract userWith60).2.1 rfl (by decide),
   (store_purchase_contract userWith60).2.2.2.2 rfl (by decide)⟩

/-- Claim C1: over any champions state exposing a stored champion with a
non-negative best rep count, a submission sets a new record exactly when
its rep count strictly exceeds the stored best, or ties it with the
stored best nonzero and a strictly smaller elapsed time; and concretely,
from the fresh state, pushups 10 in 20s is a record, then 10 in 15s
dethrones by the tie-break, 5 reps against the 10-rep champion is not a
record, and 0 reps in 0s against the fresh zero state is not a record. -/
theorem submit_challenge_record_iff :
    (∀ (st : ChampionsState) (a : ChallengeAttempt) (now : String) (cur : Champion),
      lookupChampion st a.exercise_type = some cur →
      0 ≤ cur.best_reps →
      (submitIsNewChampion st a now = true ↔
        cur.best_reps < a.reps_completed ∨
          (a.reps_completed = cur.best_reps ∧ cur.best_reps ≠ 0 ∧
            a.time_seconds < cur.best_time_seconds))) ∧
    submitIsNewChampion initial_champions
      { exercise_type := "pushup", reps_completed := 10, time_seconds := 20,
        player_name := "Alice", player_photo := none } "d1" = true ∧
    submitIsNewChampion
      (submitNewState initial_champions
        { exercise_type := "pushup", reps_completed := 10, time_seconds := 20,
          player_name := "Alice", player_photo := none } "d1")
      { exercise_type := "pushup", reps_completed := 10, time_seconds := 15,
        player_name := "Bob", player_photo := none } "d2" = true ∧
    submitIsNewChampion
      (submitNewState initial_champions
        { exercise_type := "pushup", reps_completed := 10, time_seconds := 20,
          player_name := "Alice", player_photo := none } "d1")
      { exercise_type := "pushup", reps_completed := 5, time_seconds := 5,
        player_name := "Eve", player_photo := none } "d3" = false ∧
    submitIsNewChampion initial_champions
      { exercise_type := "pushup", reps_completed := 0, time_seconds := 0,
        player_name := "Zed", player_photo := none } "d0" = false := by
  refine ⟨?_, rfl, rfl, rfl, rfl⟩
  intro st a now cur hlook hnn
  have hb : submitIsNewChampion st a now =
      (if cur.best_reps < a.reps_completed then true
       else if a.reps_completed = cur.best_reps ∧ 0 < cur.best_reps then
         decide (a.time_seconds < cur.best_time_seconds)
       else false) := by
    unfold submitIsNewChampion submit_challenge
    rw [hlook]
    dsimp only
    by_cases hc : (if cur.best_reps < a.reps_completed then true
        else if a.reps_completed = cur.best_reps ∧ 0 < cur.best_reps then
          decide (a.time_seconds < cur.best_time_seconds)
        else false) = true
    · rw [if_pos hc]
      exact hc.symm
    · rw [if_neg hc]
      exact ((Bool.not_eq_true _).mp hc).symm
  rw [hb]
  by_cases h1 : cur.best_reps < a.reps_completed
  · rw [if_pos h1]
    exact ⟨fun _ => Or.inl h1, fun _ => rfl⟩
  · rw [if_neg h1]
    by_cases h2 : a.reps_completed = cur.best_reps ∧ 0 < cur.best_reps
    · rw [if_pos h2, decide_eq_true_eq]
      constructor
      · intro h3; exact Or.inr ⟨h2.1, by omega, h3⟩
      · rintro (hlt | ⟨_, _, h3⟩)
        · exact absurd hlt h1
        · exact h3
    · rw [if_neg h2]
      constructor
      · intro hcontra; exact absurd hcontra (by simp)
      · rintro (hlt | ⟨heq, hne, _⟩)
        · exact absurd hlt h1
        · exact absurd ⟨heq, by omega⟩ h2

/-- Witness for claim C1: the fresh pushup state stores best 0, and the
first submission with 10 reps satisfies the strictly-more-reps arm. -/
theorem submit_challenge_record_iff_witness :
    submitIsNewChampion initial_champions
      { exercise_type := "pushup", reps_completed := 10, time_seconds := 20,
        player_name := "Alice", player_photo := none } "w" = true :=
  (submit_challenge_record_iff.1 initial_champions
      { exercise_type := "pushup", reps_completed := 10, time_seconds := 20,
        player_name := "Alice", player_photo := none } "w"
      initial_champions.pushup rfl (by decide)).mpr
    (Or.inl (by decide))

/-- Claim C8: a submission with an unknown kind yields the not-found
error and by construction writes nothing; a submission that is not a new
record returns the state unchanged and a current_champion equal to the
stored champion view for that kind (the get_champion output before the
call); a record submission rewrites only the submitted kind, leaving the
other kind untouched. -/
theorem submit_challenge_frame :
    (∀ (st : ChampionsState) (a : ChallengeAttempt) (now : String),
      lookupChampion st a.exercise_type = none →
      submit_challenge st a now = .error "Exercise type not found" ∧
      submitNewState st a now = st) ∧
    (∀ (st : ChampionsState) (a : ChallengeAttempt) (now : String)
        (r : ChallengeResult) (st2 : ChampionsState),
      submit_challenge st a now = .ok (r, st2) →
      r.is_new_champion = false →
      st2 = st ∧ get_champion st a.exercise_type = .ok r.current_champion) ∧
    (∀ (st : ChampionsState) (a : ChallengeAttempt) (now : String)
        (r : ChallengeResult) (st2 : ChampionsState),
      submit_challenge st a now = .ok (r, st2) →
      r.is_new_champion = true →
      (a.exercise_type = "pushup" → st2.situp = st.situp) ∧
      (a.exercise_type = "situp" → st2.pushup = st.pushup)) := by
  refine ⟨?_, ?_, ?_⟩
  · intro st a now h
    have he : submit_challenge st a now = .error "Exercise type not found" := by
      unfold submit_challenge
      rw [h]
    refine ⟨he, ?_⟩
    unfold submitNewState
    rw [he]
  · intro st a now r st2 hok hfalse
    unfold submit_challenge at hok
    cases hl : lookupChampion st a.exercise_type with
    | none => rw [hl] at hok; exact absurd hok (by simp)
    | some cur =>
      rw [hl] at hok
      dsimp only at hok
      by_cases hc : (if cur.best_reps < a.reps_completed then true
          else if a.reps_completed = cur.best_reps ∧ 0 < cur.best_reps then
            decide (a.time_seconds < cur.best_time_seconds)
          else false) = true
      · rw [if_pos hc] at hok
        simp only [Except.ok.injEq, Prod.mk.injEq] at hok
        rw [← hok.1] at hfalse
        exact absurd hfalse (by simp)
      · rw [if_neg hc] at hok
        simp only [Except.ok.injEq, Prod.mk.injEq] at hok
        refine ⟨hok.2.symm, ?_⟩
        unfold get_champion
        rw [hl, ← hok.1]
  · intro st a now r st2 hok htrue
    unfold submit_challenge at hok
    cases hl : lookupChampion st a.exercise_type with
    | none => rw [hl] at hok; exact absurd hok (by simp)
    | some cur =>
      rw [hl] at hok
      dsimp only at hok
      by_cases hc : (if cur.best_reps < a.reps_completed then true
          else if a.reps_completed = cur.best_reps ∧ 0 < cur.best_reps then
            decide (a.time_seconds < cur.best_time_seconds)
          else false) = true
      · rw [if_pos hc] at hok
        simp only [Except.ok.injEq, Prod.mk.injEq] at hok
        rw [← hok.2]
        constructor
        · intro hk
          unfold setChampion
          rw [hk]
          simp
        · intro hk
          unfold setChampion
          rw [hk]
          simp
      · rw [if_neg hc] at hok
        simp only [Except.ok.injEq, Prod.mk.injEq] at hok
        rw [← hok.1] at htrue
        exact absurd htrue (by simp)

/-- Attempt with an unknown exercise kind, for the C8 witness. -/
def squatAttempt : ChallengeAttempt :=
  { exercise_type := "squat", reps_completed := 1, time_seconds := 1,
    player_name := "Sam", player_photo := none }

/-- First record-setting attempt, for the C1 and C8 scenarios. -/
def aliceAttempt : ChallengeAttempt :=
  { exercise_type := "pushup", reps_completed := 10, time_seconds := 20,
    player_name := "Alice", player_photo := none }

/-- Champions state after aliceAttempt succeeds from the fresh state. -/
def aliceChampions : ChampionsState :=
  { pushup := { champion_name := "Alice", champion_photo := none, best_reps := 10,
                best_time_seconds := 20, date_achieved := some "d1" },
    situp := initial_champions.situp }

/-- Result of the record-setting aliceAttempt. -/
def aliceWinResult : ChallengeResult :=
  { success := true, is_new_champion := true,
    message := newChampionMessage "Alice" 10,
    current_champion :=
      { exercise_type := "pushup", champion_name := "Alice", champion_photo := none,
        best_reps := 10, best_time_seconds := 20, date_achieved := some "d1" } }

/-- Losing attempt against the Alice champion. -/
def bobLoss : ChallengeAttempt :=
  { exercise_type := "pushup", reps_completed := 5, time_seconds := 5,
    player_name := "Bob", player_photo := none }

/-- Result of the losing bobLoss attempt. -/
def bobLossResult : ChallengeResult :=
  { success := true, is_new_champion := false,
    message := goodEffortMessage 10 "Alice",
    current_champion :=
      { exercise_type := "pushup", champion_name := "Alice", champion_photo := none,
        best_reps := 10, best_time_seconds := 20, date_achieved := some "d1" } }

/-- Witness for claim C8: the unknown kind squat 404s and leaves the
state as is; the losing attempt leaves the Alice state unchanged and
echoes the stored champion; the winning attempt from the fresh state
leaves the situp champion untouched. -/
theorem submit_challenge_frame_witness :
    (submit_challenge initial_champions squatAttempt "d0" =
        .error "Exercise type not found" ∧
      submitNewState initial_champions squatAttempt "d0" = initial_champions) ∧
    (aliceChampions = aliceChampions ∧
      get_champion aliceChampions bobLoss.exercise_type =
        .ok bobLossResult.current_champion) ∧
    ((aliceAttempt.exercise_type = "pushup" →
        aliceChampions.situp = initial_champions.situp) ∧
      (aliceAttempt.exercise_type = "situp" →
        aliceChampions.pushup = initial_champions.pushup)) :=
  ⟨submit_challenge_frame.1 initial_champions squatAttempt "d0" rfl,
   submit_challenge_frame.2.1 aliceChampions bobLoss "d2" bobLossResult
     aliceChampions rfl rfl,
   submit_challenge_frame.2.2 initial_champions aliceAttempt "d1" aliceWinResult
     aliceChampions rfl rfl⟩

/-- Claim C3 as stated is false on the code.  The code obtains the token
by splitting the text on the marker and taking the chunk between the
first and second occurrence, then cutting at a line break; the claim
words the token as running from the marker to the next line break only.
On a reply carrying the marker twice on one line the code parses the
chunk between the occurrences (0.3 here), while the claimed reading
takes the whole rest of the line, fails to parse it, and would fall back
to 0.5. -/
theorem shoulder_token_counterexample :
    (parsePoseText "shoulder_y: 0.3 shoulder_y: 0.9").shoulder_y = 3/10 ∧
    shoulderYClaimed "shoulder_y: 0.3 shoulder_y: 0.9" = 1/2 ∧
    ¬ (parsePoseText "shoulder_y: 0.3 shoulder_y: 0.9").shoulder_y =
        shoulderYClaimed "shoulder_y: 0.3 shoulder_y: 0.9" := by
  have hlow : pyLower (pyStrip "shoulder_y: 0.3 shoulder_y: 0.9") =
      "shoulder_y: 0.3 shoulder_y: 0.9" := by decide
  have hc : strContains "shoulder_y: 0.3 shoulder_y: 0.9" "shoulder_y:" = true := by
    decide
  have hp : parseParts (shoulderToken "shoulder_y: 0.3 shoulder_y: 0.9") =
      some (3, 1) := by decide
  have hq : parseParts (pyStrip (String.mk (takeUntilFirst ['\n']
      (dropThroughFirst shoulderMarker
        (String.toList "shoulder_y: 0.3 shoulder_y: 0.9"))))) = none := by decide
  have h1 : (parsePoseText "shoulder_y: 0.3 shoulder_y: 0.9").shoulder_y = 3/10 := by
    show extractShoulderY (pyLower (pyStrip "shoulder_y: 0.3 shoulder_y: 0.9")) = 3/10
    rw [hlow]
    unfold extractShoulderY
    rw [hc, if_pos rfl, hp]
    norm_num [pyMax, pyMin, ratOfParts]
  have h2 : shoulderYClaimed "shoulder_y: 0.3 shoulder_y: 0.9" = 1/2 := by
    unfold shoulderYClaimed
    simp only [hlow, hc, hq, if_pos]
  refine ⟨h1, h2, ?_⟩
  rw [h1, h2]
  norm_num

/-- Claim C3 amended: the shoulder_y extraction takes the text after the
first occurrence of the marker, truncated at the next occurrence of the
marker (a consequence of the split the code uses) and then at the next
line break, strips it and parses it as a decimal number; the parsed
value is clamped into the unit interval, and when the marker is absent
or parsing fails the value is 0.5, with no exception escaping (the
extraction is a total function).  The clamp examples of the claim hold:
1.8 clamps to 1.0, and 0.35 is kept exactly. -/
theorem shoulder_extraction_clamped :
    (∀ response : String,
      (parsePoseText response).shoulder_y =
        (let t := pyLower (pyStrip response)
         if strContains t "shoulder_y:" then
           match parseDecimal (shoulderToken t) with
           | some v => pyMax 0 (pyMin 1 v)
           | none => 1/2
         else 1/2)) ∧
    (parsePoseText "shoulder_y: 1.8").shoulder_y = 1 ∧
    (parsePoseText "shoulder_y: 0.35").shoulder_y = 7/20 := by
  refine ⟨?_, ?_, ?_⟩
  · intro response
    show extractShoulderY (pyLower (pyStrip response)) = _
    unfold extractShoulderY parseDecimal
    cases h : parseParts (shoulderToken (pyLower (pyStrip response))) with
    | none => simp [h]
    | some p => simp [h]
  · have hlow : pyLower (pyStrip "shoulder_y: 1.8") = "shoulder_y: 1.8" := by decide
    have hc : strContains "shoulder_y: 1.8" "shoulder_y:" = true := by decide
    have hp : parseParts (shoulderToken "shoulder_y: 1.8") = some (18, 1) := by decide
    show extractShoulderY (pyLower (pyStrip "shoulder_y: 1.8")) = 1
    rw [hlow]
    unfold extractShoulderY
    rw [hc, if_pos rfl, hp]
    norm_num [pyMax, pyMin, ratOfParts]
  · have hlow : pyLower (pyStrip "shoulder_y: 0.35") = "shoulder_y: 0.35" := by decide
    have hc : strContains "shoulder_y: 0.35" "shoulder_y:" = true := by decide
    have hp : parseParts (shoulderToken "shoulder_y: 0.35") = some (35, 2) := by decide
    show extractShoulderY (pyLower (pyStrip "shoulder_y: 0.35")) = 7/20
    rw [hlow]
    unfold extractShoulderY
    rw [hc, if_pos rfl, hp]
    norm_num [pyMax, pyMin, ratOfParts]

/-- Every single operation keeps the rep_points balance non-negative:
the only debit path is the purchase branch, which is guarded by the
balance check. -/
theorem applyOp_rep_points_nonneg (s : AppState) (op : Op)
    (h : 0 ≤ s.user.rep_points) : 0 ≤ (applyOp s op).user.rep_points := by
  cases op with
  | addRep =>
    simp only [applyOp, add_rep]
    omega
  | createRep input freshId now =>
    simp only [applyOp, create_rep]
    omega
  | purchase item_id =>
    simp only [applyOp, purchase_item]
    split_ifs <;> simp_all

/-- No operation resets the badge unlock flag. -/
theorem applyOp_badges_mono (s : AppState) (op : Op)
    (h : s.user.badges_unlocked = true) :
    (applyOp s op).user.badges_unlocked = true := by
  cases op with
  | addRep => simpa [applyOp, add_rep] using h
  | createRep input freshId now => simpa [applyOp, create_rep] using h
  | purchase item_id =>
    simp only [applyOp, purchase_item]
    split_ifs <;> simp_all

/-- No operation resets the premium unlock flag. -/
theorem applyOp_premium_mono (s : AppState) (op : Op)
    (h : s.user.premium_unlocked = true) :
    (applyOp s op).user.premium_unlocked = true := by
  cases op with
  | addRep => simpa [applyOp, add_rep] using h
  | createRep input freshId now => simpa [applyOp, create_rep] using h
  | purchase item_id =>
    simp only [applyOp, purchase_item]
    split_ifs <;> simp_all

/-- Folding any operation list preserves a non-negative balance. -/
theorem foldl_rep_points_nonneg (ops : List Op) (s : AppState)
    (h : 0 ≤ s.user.rep_points) : 0 ≤ (ops.foldl applyOp s).user.rep_points := by
  induction ops generalizing s with
  | nil => exact h
  | cons op rest ih => exact ih _ (applyOp_rep_points_nonneg s op h)

/-- Folding any operation list preserves the badge unlock flag. -/
theorem foldl_badges_mono (ops : List Op) (s : AppState)
    (h : s.user.badges_unlocked = true) :
    (ops.foldl applyOp s).user.badges_unlocked = true := by
  induction ops generalizing s with
  | nil => exact h
  | cons op rest ih => exact ih _ (applyOp_badges_mono s op h)

/-- Folding any operation list preserves the premium unlock flag. -/
theorem foldl_premium_mono (ops : List Op) (s : AppState)
    (h : s.user.premium_unlocked = true) :
    (ops.foldl applyOp s).user.premium_unlocked = true := by
  induction ops generalizing s with
  | nil => exact h
  | cons op rest ih => exact ih _ (applyOp_premium_mono s op h)

/-- Claim C10: from the initial demo-user state, under every sequence of
add-rep, Rep-creation and store-purchase operations, the rep_points
balance never becomes negative, and each unlock flag, once set, stays
set under every further sequence of operations. -/
theorem demo_user_invariants :
    (∀ ops : List Op, 0 ≤ (runOps ops).user.rep_points) ∧
    (∀ ops more : List Op,
      ((runOps ops).user.badges_unlocked = true →
        (runOps (ops ++ more)).user.badges_unlocked = true) ∧
      ((runOps ops).user.premium_unlocked = true →
        (runOps (ops ++ more)).user.premium_unlocked = true)) := by
  refine ⟨fun ops => foldl_rep_points_nonneg ops initial_app (by decide),
    fun ops more => ⟨?_, ?_⟩⟩
  · intro h
    unfold runOps
    rw [List.foldl_append]
    exact foldl_badges_mono more _ h
  · intro h
    unfold runOps
    rw [List.foldl_append]
    exact foldl_premium_mono more _ h

/-- Fifty in-memory rep additions followed by the badge purchase. -/
def unlockBadgeOps : List Op := List.replicate 50 Op.addRep ++ [Op.purchase "badge"]

/-- One hundred in-memory rep additions followed by the premium purchase. -/
def unlockPremiumOps : List Op :=
  List.replicate 100 Op.addRep ++ [Op.purchase "premium"]

/-- Witness for claim C10: the balance stays non-negative along the
badge-unlocking run, and both unlock flags survive one more operation
after the run that set them. -/
theorem demo_user_invariants_witness :
    0 ≤ (runOps unlockBadgeOps).user.rep_points ∧
    (runOps (unlockBadgeOps ++ [Op.addRep])).user.badges_unlocked = true ∧
    (runOps (unlockPremiumOps ++ [Op.addRep])).user.premium_unlocked = true :=
  ⟨demo_user_invariants.1 unlockBadgeOps,
   (demo_user_invariants.2 unlockBadgeOps [Op.addRep]).1 (by decide),
   (demo_user_invariants.2 unlockPremiumOps [Op.addRep]).2 (by decide)⟩

end RepCoin
